import Mathlib

/-!
Verification development for the firewall control subsystem of the
NETRA-IDS-IPS repository (`src/services/firewall.py`).

The Python module is shallowly embedded: the ambient OS behaviour
(`platform.system()`, the `ctypes` admin probe, `subprocess.run`) is an
explicit environment record, a Python exception that escapes a function is
`Except.error`, and every controller function additionally returns the
number of times the command executor (`_run_powershell`) was invoked, so
that "the executor is never invoked" claims are directly statable.
-/

/-- Executable model of Python `str.lower()` (ASCII-relevant part). -/
def strToLower (s : String) : String := String.mk (s.data.map Char.toLower)

/-- Executable model of Python `str.strip()`: drop whitespace from both
ends. -/
def strTrim (s : String) : String :=
  String.mk
    (((s.data.dropWhile Char.isWhitespace).reverse.dropWhile
      Char.isWhitespace).reverse)

/-- Embeds `subprocess.CompletedProcess` as captured by
`subprocess.run(..., capture_output=True, text=True)`. -/
structure CompletedProcess where
  returncode : Int
  stdout : String
  stderr : String
deriving Repr, DecidableEq

/-- Embeds the `FirewallResult` dataclass: `ok`, `message`, and the
optional `command` field (default `None`). -/
structure FirewallResult where
  ok : Bool
  message : String
  command : Option String := none
deriving Repr, DecidableEq

/-- The ambient OS environment the module reads: the value of
`platform.system()`, the outcome of the `ctypes.windll.shell32.IsUserAnAdmin()`
call (`Except.error` when the attribute chain or call raises, as on
non-Windows hosts), and the behaviour of `subprocess.run` on an argument
vector (`Except.error` when the process cannot be spawned at all). -/
structure Env where
  platformSystem : String
  isUserAnAdminCall : Except String Bool
  subprocessRun : List String → Except String CompletedProcess

/-- Embeds `_is_windows_admin`: `bool(ctypes.windll.shell32.IsUserAnAdmin())`
with any exception swallowed into `False`. -/
def _is_windows_admin (env : Env) : Bool :=
  match env.isUserAnAdminCall with
  | Except.ok b => b
  | Except.error _ => false

/-- Embeds `_run_powershell`: runs
`["powershell", "-NoProfile", "-ExecutionPolicy", "Bypass", "-Command", ps_command]`
through `subprocess.run`. A spawn failure propagates as the exception. -/
def _run_powershell (env : Env) (ps_command : String) :
    Except String CompletedProcess :=
  env.subprocessRun
    ["powershell", "-NoProfile", "-ExecutionPolicy", "Bypass", "-Command",
      ps_command]

/-- The block command f-string built at the top of `block_ip`. -/
def blockCmd (ip : String) : String :=
  "New-NetFirewallRule -DisplayName \"IDS_Block_" ++ ip ++
    "\" -Direction Inbound -Action Block -RemoteAddress " ++ ip ++ " -Profile Any"

/-- The unblock command f-string built at the top of `unblock_ip`. -/
def unblockCmd (ip : String) : String :=
  "Get-NetFirewallRule -DisplayName \"IDS_Block_" ++ ip ++
    "\" -ErrorAction SilentlyContinue | Remove-NetFirewallRule -ErrorAction SilentlyContinue"

/-- The list command built in `list_ids_rules`. -/
def listCmd : String :=
  "Get-NetFirewallRule | " ++
    "Where-Object \x7b$_.DisplayName -like \"IDS_Block_*\"\x7d | " ++
    "Select DisplayName,Enabled,Direction,Action | Format-Table -AutoSize"

/-- Embeds `block_ip(ip, allow_real, dry_run, backend)`. The first
component is the Python outcome (`Except.error` = an uncaught exception
escaping to the caller), the second counts `_run_powershell` invocations. -/
def block_ip (env : Env) (ip : String) (allow_real : Bool) (dry_run : Bool)
    (backend : String) : Except String FirewallResult × Nat :=
  let cmd := blockCmd ip
  if dry_run || !allow_real then
    (Except.ok ⟨true,
      "(Dry-run) Block command prepared. Enable REAL blocking + run Streamlit/VS Code as Admin to apply.",
      some cmd⟩, 0)
  else if strToLower env.platformSystem = "windows" then
    if !_is_windows_admin env then
      (Except.ok ⟨false,
        "Access denied. Run VS Code / PowerShell / Streamlit as **Administrator**, then try again.",
        some cmd⟩, 0)
    else
      match _run_powershell env cmd with
      | Except.error e => (Except.error e, 1)
      | Except.ok proc =>
        if proc.returncode = 0 then
          (Except.ok ⟨true, "✅ Blocked " ++ ip ++ " (Windows Firewall rule added).",
            some cmd⟩, 1)
        else
          let err := if strTrim proc.stderr = "" then strTrim proc.stdout
            else strTrim proc.stderr
          (Except.ok ⟨false, "❌ Block failed: " ++ err, some cmd⟩, 1)
  else
    (Except.ok ⟨false, "Firewall backend not supported on this OS.", some cmd⟩, 0)

/-- Embeds `unblock_ip(ip, allow_real, dry_run, backend)`, with the same
conventions as `block_ip`. -/
def unblock_ip (env : Env) (ip : String) (allow_real : Bool) (dry_run : Bool)
    (backend : String) : Except String FirewallResult × Nat :=
  let cmd := unblockCmd ip
  if dry_run || !allow_real then
    (Except.ok ⟨true,
      "(Dry-run) Unblock command prepared. Enable REAL blocking + run as Admin to apply.",
      some cmd⟩, 0)
  else if strToLower env.platformSystem = "windows" then
    if !_is_windows_admin env then
      (Except.ok ⟨false,
        "Access denied. Run VS Code / PowerShell / Streamlit as **Administrator**, then try again.",
        some cmd⟩, 0)
    else
      match _run_powershell env cmd with
      | Except.error e => (Except.error e, 1)
      | Except.ok proc =>
        if proc.returncode = 0 then
          (Except.ok ⟨true,
            "✅ Unblock attempted for " ++ ip ++ ". (If rule existed, it was removed.)",
            some cmd⟩, 1)
        else
          let err := if strTrim proc.stderr = "" then strTrim proc.stdout
            else strTrim proc.stderr
          (Except.ok ⟨false, "❌ Unblock failed: " ++ err, some cmd⟩, 1)
  else
    (Except.ok ⟨false, "Firewall backend not supported on this OS.", some cmd⟩, 0)

/-- Embeds `list_ids_rules()`, with the same conventions as `block_ip`. -/
def list_ids_rules (env : Env) : Except String FirewallResult × Nat :=
  if strToLower env.platformSystem ≠ "windows" then
    (Except.ok ⟨false, "Rule listing supported only on Windows.", none⟩, 0)
  else
    let cmd := listCmd
    match _run_powershell env cmd with
    | Except.error e => (Except.error e, 1)
    | Except.ok proc =>
      if proc.returncode = 0 then
        let out := strTrim proc.stdout
        (Except.ok ⟨true, if out = "" then "(No IDS rules found)" else out,
          some cmd⟩, 1)
      else
        (Except.ok ⟨false,
          if strTrim proc.stderr = "" then strTrim proc.stdout else strTrim proc.stderr,
          some cmd⟩, 1)

/-- `s` contains `t` as a contiguous substring. -/
def ContainsStr (s t : String) : Prop := ∃ a b, s = a ++ t ++ b

/-- A concrete environment: Windows host, admin probe succeeds with `true`,
but the shell binary is missing so every spawn attempt raises. -/
def envSpawnFail : Env :=
  ⟨"Windows", Except.ok true,
    fun _ => Except.error "FileNotFoundError: powershell"⟩

/-- A concrete environment: Windows host, admin, executor succeeds with
exit code 0 and empty output. -/
def envWinAdminOk : Env :=
  ⟨"Windows", Except.ok true, fun _ => Except.ok ⟨0, "", ""⟩⟩

/-- A concrete environment: Windows host, unprivileged. -/
def envWinNoAdmin : Env :=
  ⟨"Windows", Except.ok false, fun _ => Except.ok ⟨0, "", ""⟩⟩

/-- A concrete environment: Linux host (admin probe raises, as `ctypes.windll`
does not exist off Windows). -/
def envLinux : Env :=
  ⟨"Linux", Except.error "AttributeError: windll",
    fun _ => Except.ok ⟨0, "", ""⟩⟩

/-- A concrete environment: Windows host, admin, executor completes with
exit code 1 and stderr `RuleAlreadyExists`. -/
def envWinExecFail : Env :=
  ⟨"Windows", Except.ok true, fun _ => Except.ok ⟨1, "", "RuleAlreadyExists"⟩⟩

lemma append_merge (a b c x : String) (h : a ++ b = c) :
    a ++ (b ++ x) = c ++ x := by rw [← String.append_assoc, h]

lemma containsStr_blockCmd_rule (ip : String) :
    ContainsStr (blockCmd ip) ("IDS_Block_" ++ ip) := by
  refine ⟨"New-NetFirewallRule -DisplayName \"",
    "\" -Direction Inbound -Action Block -RemoteAddress " ++ ip ++ " -Profile Any", ?_⟩
  unfold blockCmd
  simp only [String.append_assoc]
  rw [append_merge "New-NetFirewallRule -DisplayName \"" "IDS_Block_"
    "New-NetFirewallRule -DisplayName \"IDS_Block_"
    (ip ++ ("\" -Direction Inbound -Action Block -RemoteAddress " ++
      (ip ++ " -Profile Any"))) rfl]

lemma containsStr_unblockCmd_rule (ip : String) :
    ContainsStr (unblockCmd ip) ("IDS_Block_" ++ ip) := by
  refine ⟨"Get-NetFirewallRule -DisplayName \"",
    "\" -ErrorAction SilentlyContinue | Remove-NetFirewallRule -ErrorAction SilentlyContinue", ?_⟩
  unfold unblockCmd
  simp only [String.append_assoc]
  rw [append_merge "Get-NetFirewallRule -DisplayName \"" "IDS_Block_"
    "Get-NetFirewallRule -DisplayName \"IDS_Block_"
    (ip ++ "\" -ErrorAction SilentlyContinue | Remove-NetFirewallRule -ErrorAction SilentlyContinue") rfl]

lemma containsStr_dry_block_msg :
    ContainsStr
      "(Dry-run) Block command prepared. Enable REAL blocking + run Streamlit/VS Code as Admin to apply."
      "Dry-run" :=
  ⟨"(", ") Block command prepared. Enable REAL blocking + run Streamlit/VS Code as Admin to apply.", rfl⟩

lemma containsStr_access_denied :
    ContainsStr
      "Access denied. Run VS Code / PowerShell / Streamlit as **Administrator**, then try again."
      "Access denied" :=
  ⟨"", ". Run VS Code / PowerShell / Streamlit as **Administrator**, then try again.", rfl⟩

lemma containsStr_self_with_prefix (a t : String) : ContainsStr (a ++ t) t :=
  ⟨a, "", by rw [String.append_assoc, String.append_empty]⟩

lemma block_ip_ok_command (env : Env) (ip : String) (ar dr : Bool)
    (backend : String) (r : FirewallResult)
    (h : (block_ip env ip ar dr backend).1 = Except.ok r) :
    r.command = some (blockCmd ip) := by
  obtain ⟨rok, rmsg, rcmd⟩ := r
  unfold block_ip at h
  rcases hps : _run_powershell env (blockCmd ip) with e | proc <;>
    simp only [hps] at h <;> repeat' split at h <;> try simp_all

lemma unblock_ip_ok_command (env : Env) (ip : String) (ar dr : Bool)
    (backend : String) (r : FirewallResult)
    (h : (unblock_ip env ip ar dr backend).1 = Except.ok r) :
    r.command = some (unblockCmd ip) := by
  obtain ⟨rok, rmsg, rcmd⟩ := r
  unfold unblock_ip at h
  rcases hps : _run_powershell env (unblockCmd ip) with e | proc <;>
    simp only [hps] at h <;> repeat' split at h <;> try simp_all

lemma list_ids_rules_none_command (env : Env) (r : FirewallResult)
    (h : (list_ids_rules env).1 = Except.ok r) (hc : r.command = none) :
    r = ⟨false, "Rule listing supported only on Windows.", none⟩ := by
  obtain ⟨rok, rmsg, rcmd⟩ := r
  unfold list_ids_rules at h
  rcases hps : _run_powershell env listCmd with e | proc <;>
    simp only [hps] at h <;> repeat' split at h <;> try simp_all

/-- C2: for every string `ip`, every `allow_real`, every backend argument and
every environment, `block_ip` with `dry_run = true` returns `ok = true` with a
message containing "Dry-run" and a command containing the exact rule name
`IDS_Block_<ip>`, and the executor is invoked zero times (no command is
executed). -/
theorem C2_dry_run_block (env : Env) (ip : String) (allow_real : Bool)
    (backend : String) :
    block_ip env ip allow_real true backend =
      (Except.ok ⟨true,
        "(Dry-run) Block command prepared. Enable REAL blocking + run Streamlit/VS Code as Admin to apply.",
        some (blockCmd ip)⟩, 0) ∧
    ContainsStr
      "(Dry-run) Block command prepared. Enable REAL blocking + run Streamlit/VS Code as Admin to apply."
      "Dry-run" ∧
    ContainsStr (blockCmd ip) ("IDS_Block_" ++ ip) :=
  ⟨rfl, containsStr_dry_block_msg, containsStr_blockCmd_rule ip⟩

/-- C3: on the supported platform (`platform.system().lower() == "windows"`)
in REAL mode without admin privilege, `block_ip` and `unblock_ip` return
`ok = false` with the access-denied message and the built command, and the
executor is invoked zero times. -/
theorem C3_privilege_gate (env : Env) (ip backend : String)
    (hwin : strToLower env.platformSystem = "windows")
    (hadmin : _is_windows_admin env = false) :
    block_ip env ip true false backend =
      (Except.ok ⟨false,
        "Access denied. Run VS Code / PowerShell / Streamlit as **Administrator**, then try again.",
        some (blockCmd ip)⟩, 0) ∧
    unblock_ip env ip true false backend =
      (Except.ok ⟨false,
        "Access denied. Run VS Code / PowerShell / Streamlit as **Administrator**, then try again.",
        some (unblockCmd ip)⟩, 0) ∧
    ContainsStr
      "Access denied. Run VS Code / PowerShell / Streamlit as **Administrator**, then try again."
      "Access denied" := by
  refine ⟨?_, ?_, containsStr_access_denied⟩ <;>
    simp [block_ip, unblock_ip, hwin, hadmin]

/-- Witness for C3 at a concrete unprivileged Windows environment. -/
theorem C3_privilege_gate_witness :
    block_ip envWinNoAdmin "203.0.113.5" true false "auto" =
      (Except.ok ⟨false,
        "Access denied. Run VS Code / PowerShell / Streamlit as **Administrator**, then try again.",
        some (blockCmd "203.0.113.5")⟩, 0) ∧
    unblock_ip envWinNoAdmin "203.0.113.5" true false "auto" =
      (Except.ok ⟨false,
        "Access denied. Run VS Code / PowerShell / Streamlit as **Administrator**, then try again.",
        some (unblockCmd "203.0.113.5")⟩, 0) ∧
    ContainsStr
      "Access denied. Run VS Code / PowerShell / Streamlit as **Administrator**, then try again."
      "Access denied" :=
  C3_privilege_gate envWinNoAdmin "203.0.113.5" "auto" (by decide) (by decide)

/-- C4: with `allow_real = false` and `dry_run = false`, `block_ip` and
`unblock_ip` return results identical to the `dry_run = true` call: dry-run is
the effective mode whenever real blocking is disabled. -/
theorem C4_disabled_real_is_dry_run (env : Env) (ip backend : String) :
    block_ip env ip false false backend = block_ip env ip false true backend ∧
    unblock_ip env ip false false backend = unblock_ip env ip false true backend :=
  ⟨rfl, rfl⟩

/-- C5: in REAL mode on any platform other than Windows, `block_ip` and
`unblock_ip` return `ok = false` with the unsupported-backend message and the
built command, and the executor is invoked zero times. -/
theorem C5_platform_gate (env : Env) (ip backend : String)
    (hplat : strToLower env.platformSystem ≠ "windows") :
    block_ip env ip true false backend =
      (Except.ok ⟨false, "Firewall backend not supported on this OS.",
        some (blockCmd ip)⟩, 0) ∧
    unblock_ip env ip true false backend =
      (Except.ok ⟨false, "Firewall backend not supported on this OS.",
        some (unblockCmd ip)⟩, 0) := by
  constructor <;> simp [block_ip, unblock_ip, hplat]

/-- Witness for C5 at a concrete Linux environment. -/
theorem C5_platform_gate_witness :
    block_ip envLinux "203.0.113.5" true false "auto" =
      (Except.ok ⟨false, "Firewall backend not supported on this OS.",
        some (blockCmd "203.0.113.5")⟩, 0) ∧
    unblock_ip envLinux "203.0.113.5" true false "auto" =
      (Except.ok ⟨false, "Firewall backend not supported on this OS.",
        some (unblockCmd "203.0.113.5")⟩, 0) :=
  C5_platform_gate envLinux "203.0.113.5" "auto" (by decide)

/-- C10: the `backend` parameter of `block_ip` and `unblock_ip` is never
read: any two backend values yield identical results on all other inputs. -/
theorem C10_backend_ignored (env : Env) (ip : String) (ar dr : Bool)
    (b1 b2 : String) :
    block_ip env ip ar dr b1 = block_ip env ip ar dr b2 ∧
    unblock_ip env ip ar dr b1 = unblock_ip env ip ar dr b2 :=
  ⟨rfl, rfl⟩

/-- C1 counterexample: in a Windows environment with admin privilege whose
shell binary is missing, `block_ip` in REAL mode does not return a
`FirewallResult` with `ok = false`: the spawn exception escapes to the
caller. -/
theorem C1_spawn_escape_counterexample :
    (block_ip envSpawnFail "203.0.113.5" true false "auto").1 =
      Except.error "FileNotFoundError: powershell" := rfl

/-- C1 (amended): when REAL mode on Windows with privilege reaches the
executor and the subprocess cannot be spawned at all, the spawn exception
propagates uncaught out of `block_ip`, `unblock_ip` and `list_ids_rules` to
the caller; only the branches that never invoke the executor are
exception-free. -/
theorem C1_spawn_failure_propagates (env : Env) (ip backend e : String)
    (hwin : strToLower env.platformSystem = "windows")
    (hadmin : _is_windows_admin env = true)
    (hrun : ∀ args, env.subprocessRun args = Except.error e) :
    (block_ip env ip true false backend).1 = Except.error e ∧
    (unblock_ip env ip true false backend).1 = Except.error e ∧
    (list_ids_rules env).1 = Except.error e := by
  refine ⟨?_, ?_, ?_⟩ <;>
    simp [block_ip, unblock_ip, list_ids_rules, _run_powershell, hwin, hadmin,
      hrun]

/-- Witness for the amended C1 at a concrete spawn-failing environment. -/
theorem C1_spawn_failure_propagates_witness :
    (block_ip envSpawnFail "198.51.100.7" true false "auto").1 =
      Except.error "FileNotFoundError: powershell" ∧
    (unblock_ip envSpawnFail "198.51.100.7" true false "auto").1 =
      Except.error "FileNotFoundError: powershell" ∧
    (list_ids_rules envSpawnFail).1 =
      Except.error "FileNotFoundError: powershell" :=
  C1_spawn_failure_propagates envSpawnFail "198.51.100.7" "auto"
    "FileNotFoundError: powershell" (by decide) (by decide) (fun _ => rfl)

/-- C6: every `FirewallResult` that `block_ip` returns carries
`command = blockCmd ip`, every one that `unblock_ip` returns carries
`command = unblockCmd ip`, and the only result of any operation with an
absent command is the unsupported-platform rejection of `list_ids_rules`. -/
theorem C6_command_populated :
    (∀ (env : Env) (ip : String) (ar dr : Bool) (backend : String)
      (r : FirewallResult), (block_ip env ip ar dr backend).1 = Except.ok r →
        r.command = some (blockCmd ip)) ∧
    (∀ (env : Env) (ip : String) (ar dr : Bool) (backend : String)
      (r : FirewallResult), (unblock_ip env ip ar dr backend).1 = Except.ok r →
        r.command = some (unblockCmd ip)) ∧
    (∀ (env : Env) (r : FirewallResult),
      (list_ids_rules env).1 = Except.ok r → r.command = none →
        r = ⟨false, "Rule listing supported only on Windows.", none⟩) :=
  ⟨block_ip_ok_command, unblock_ip_ok_command, list_ids_rules_none_command⟩

/-- Witness for C6: concrete dry-run block/unblock results and the concrete
unsupported-platform list result. -/
theorem C6_command_populated_witness :
    (⟨true,
      "(Dry-run) Block command prepared. Enable REAL blocking + run Streamlit/VS Code as Admin to apply.",
      some (blockCmd "203.0.113.9")⟩ : FirewallResult).command =
        some (blockCmd "203.0.113.9") ∧
    (⟨true,
      "(Dry-run) Unblock command prepared. Enable REAL blocking + run as Admin to apply.",
      some (unblockCmd "203.0.113.9")⟩ : FirewallResult).command =
        some (unblockCmd "203.0.113.9") ∧
    (⟨false, "Rule listing supported only on Windows.", none⟩ : FirewallResult) =
      ⟨false, "Rule listing supported only on Windows.", none⟩ :=
  ⟨C6_command_populated.1 envLinux "203.0.113.9" true true "auto"
      ⟨true,
        "(Dry-run) Block command prepared. Enable REAL blocking + run Streamlit/VS Code as Admin to apply.",
        some (blockCmd "203.0.113.9")⟩ rfl,
    C6_command_populated.2.1 envLinux "203.0.113.9" true true "auto"
      ⟨true,
        "(Dry-run) Unblock command prepared. Enable REAL blocking + run as Admin to apply.",
        some (unblockCmd "203.0.113.9")⟩ rfl,
    C6_command_populated.2.2 envLinux
      ⟨false, "Rule listing supported only on Windows.", none⟩ rfl rfl⟩

/-- C7: for every string `ip` — whether or not it is a valid IP address —
every `FirewallResult` that `block_ip` returns carries exactly the
`New-NetFirewallRule` command template with `ip` substituted; no validation
or rejection happens before command construction. -/
theorem C7_exact_block_command (env : Env) (ip : String) (ar dr : Bool)
    (backend : String) (r : FirewallResult)
    (h : (block_ip env ip ar dr backend).1 = Except.ok r) :
    r.command = some
      ("New-NetFirewallRule -DisplayName \"IDS_Block_" ++ ip ++
        "\" -Direction Inbound -Action Block -RemoteAddress " ++ ip ++
        " -Profile Any") :=
  block_ip_ok_command env ip ar dr backend r h

/-- Witness for C7 at a string that is not a valid IP address. -/
theorem C7_exact_block_command_witness :
    (⟨true,
      "(Dry-run) Block command prepared. Enable REAL blocking + run Streamlit/VS Code as Admin to apply.",
      some (blockCmd "not-an-ip; Start-Process calc")⟩ : FirewallResult).command =
      some
        ("New-NetFirewallRule -DisplayName \"IDS_Block_" ++
          "not-an-ip; Start-Process calc" ++
          "\" -Direction Inbound -Action Block -RemoteAddress " ++
          "not-an-ip; Start-Process calc" ++ " -Profile Any") :=
  C7_exact_block_command envLinux "not-an-ip; Start-Process calc" false true
    "auto"
    ⟨true,
      "(Dry-run) Block command prepared. Enable REAL blocking + run Streamlit/VS Code as Admin to apply.",
      some (blockCmd "not-an-ip; Start-Process calc")⟩ rfl

/-- C8: in REAL mode on Windows with privilege, whenever the executor
completes the unblock command with exit code 0 — with any stdout/stderr, in
particular when no rule named `IDS_Block_<ip>` existed — `unblock_ip`
reports `ok = true` without re-checking existence; and the unblock command
it builds looks the rule up by name and removes it with "not found" errors
suppressed (`-ErrorAction SilentlyContinue` on both steps). -/
theorem C8_unblock_idempotent (env : Env) (ip backend out errs : String)
    (hwin : strToLower env.platformSystem = "windows")
    (hadmin : _is_windows_admin env = true)
    (hrun : _run_powershell env (unblockCmd ip) = Except.ok ⟨0, out, errs⟩) :
    (unblock_ip env ip true false backend).1 =
      Except.ok ⟨true,
        "✅ Unblock attempted for " ++ ip ++ ". (If rule existed, it was removed.)",
        some (unblockCmd ip)⟩ ∧
    unblockCmd ip =
      "Get-NetFirewallRule -DisplayName \"" ++ ("IDS_Block_" ++ ip) ++
        "\" -ErrorAction SilentlyContinue | Remove-NetFirewallRule -ErrorAction SilentlyContinue" := by
  constructor
  · simp [unblock_ip, hwin, hadmin, hrun]
  · unfold unblockCmd
    simp only [String.append_assoc]
    rw [append_merge "Get-NetFirewallRule -DisplayName \"" "IDS_Block_"
      "Get-NetFirewallRule -DisplayName \"IDS_Block_"
      (ip ++ "\" -ErrorAction SilentlyContinue | Remove-NetFirewallRule -ErrorAction SilentlyContinue") rfl]

/-- Witness for C8 at a concrete privileged Windows environment whose
executor reports exit 0 with empty output (no rule existed). -/
theorem C8_unblock_idempotent_witness :
    (unblock_ip envWinAdminOk "203.0.113.5" true false "auto").1 =
      Except.ok ⟨true,
        "✅ Unblock attempted for " ++ "203.0.113.5" ++ ". (If rule existed, it was removed.)",
        some (unblockCmd "203.0.113.5")⟩ ∧
    unblockCmd "203.0.113.5" =
      "Get-NetFirewallRule -DisplayName \"" ++ ("IDS_Block_" ++ "203.0.113.5") ++
        "\" -ErrorAction SilentlyContinue | Remove-NetFirewallRule -ErrorAction SilentlyContinue" :=
  C8_unblock_idempotent envWinAdminOk "203.0.113.5" "auto" "" "" (by decide)
    (by decide) rfl

/-- C9: in REAL mode on Windows with privilege, when the subprocess
completes with a non-zero exit code, `block_ip` and `unblock_ip` return
`ok = false` with a message containing the stripped captured stderr, falling
back to the stripped captured stdout when stderr strips to empty. -/
theorem C9_failure_reports_stderr (env : Env) (ip backend : String)
    (proc : CompletedProcess)
    (hwin : strToLower env.platformSystem = "windows")
    (hadmin : _is_windows_admin env = true)
    (hrun : ∀ args, env.subprocessRun args = Except.ok proc)
    (hrc : proc.returncode ≠ 0) :
    (block_ip env ip true false backend).1 =
      Except.ok ⟨false, "❌ Block failed: " ++
        (if strTrim proc.stderr = "" then strTrim proc.stdout
          else strTrim proc.stderr),
        some (blockCmd ip)⟩ ∧
    (unblock_ip env ip true false backend).1 =
      Except.ok ⟨false, "❌ Unblock failed: " ++
        (if strTrim proc.stderr = "" then strTrim proc.stdout
          else strTrim proc.stderr),
        some (unblockCmd ip)⟩ ∧
    ContainsStr
      ("❌ Block failed: " ++ (if strTrim proc.stderr = "" then strTrim proc.stdout
        else strTrim proc.stderr))
      (if strTrim proc.stderr = "" then strTrim proc.stdout
        else strTrim proc.stderr) ∧
    ContainsStr
      ("❌ Unblock failed: " ++ (if strTrim proc.stderr = "" then strTrim proc.stdout
        else strTrim proc.stderr))
      (if strTrim proc.stderr = "" then strTrim proc.stdout
        else strTrim proc.stderr) := by
  refine ⟨?_, ?_, containsStr_self_with_prefix _ _,
    containsStr_self_with_prefix _ _⟩ <;>
    simp [block_ip, unblock_ip, _run_powershell, hwin, hadmin, hrun, hrc]

/-- Witness for C9 at a concrete environment whose executor exits 1 with
stderr `RuleAlreadyExists`. -/
theorem C9_failure_reports_stderr_witness :
    (block_ip envWinExecFail "203.0.113.5" true false "auto").1 =
      Except.ok ⟨false, "❌ Block failed: " ++
        (if strTrim "RuleAlreadyExists" = "" then strTrim ""
          else strTrim "RuleAlreadyExists"),
        some (blockCmd "203.0.113.5")⟩ ∧
    (unblock_ip envWinExecFail "203.0.113.5" true false "auto").1 =
      Except.ok ⟨false, "❌ Unblock failed: " ++
        (if strTrim "RuleAlreadyExists" = "" then strTrim ""
          else strTrim "RuleAlreadyExists"),
        some (unblockCmd "203.0.113.5")⟩ ∧
    ContainsStr
      ("❌ Block failed: " ++ (if strTrim "RuleAlreadyExists" = "" then strTrim ""
        else strTrim "RuleAlreadyExists"))
      (if strTrim "RuleAlreadyExists" = "" then strTrim ""
        else strTrim "RuleAlreadyExists") ∧
    ContainsStr
      ("❌ Unblock failed: " ++ (if strTrim "RuleAlreadyExists" = "" then strTrim ""
        else strTrim "RuleAlreadyExists"))
      (if strTrim "RuleAlreadyExists" = "" then strTrim ""
        else strTrim "RuleAlreadyExists") :=
  C9_failure_reports_stderr envWinExecFail "203.0.113.5" "auto"
    ⟨1, "", "RuleAlreadyExists"⟩ (by decide) (by decide) (fun _ => rfl)
    (by decide)
